import Mathlib

/-!
Verification of the order-pricing / status-lifecycle engine and the
review / rating-aggregation engine of the promptmenu restaurant functions
repository.  Monetary amounts and ratings are modelled as exact rationals;
round(x, d) is modelled as exact decimal rounding with ties to even (the
rounding mode of the source language's round builtin on exact values).
All definitions are translated from src/order_crud/__init__.py and
src/review_crud/__init__.py.
-/

namespace PromptMenu

/-- Round-half-to-even of a rational to an integer. -/
def pyRoundInt (x : ℚ) : ℤ :=
  let f : ℤ := ⌊x⌋
  let r : ℚ := x - (f : ℚ)
  if r < 1/2 then f
  else if 1/2 < r then f + 1
  else if f % 2 = 0 then f else f + 1

/-- Model of round(x, d): round to d decimal places, ties to even. -/
def roundTo (d : ℕ) (x : ℚ) : ℚ :=
  ((pyRoundInt (x * ((10 : ℚ) ^ d)) : ℤ) : ℚ) / ((10 : ℚ) ^ d)

/-! ### Order data model (src/order_crud/__init__.py) -/

/-- One entry of an item's customizations list; `c.get("price", 0)` is
modelled by an optional price defaulting to 0. -/
structure Customization where
  price : Option ℚ := none
deriving Repr, DecidableEq

/-- A line item of an order request.  `quantity` defaults to 1 and
`unit_price` to 0 when absent, exactly as `item.get(...)` does. -/
structure OrderItem where
  quantity : Option ℚ := none
  unit_price : Option ℚ := none
  customizations : List Customization := []
  subtotal : Option ℚ := none
deriving Repr, DecidableEq

/-- The financially relevant fields of a create-order request body;
a field is `none` when the key is absent from the JSON body. -/
structure OrderRequest where
  restaurant_id : Option String := none
  items : Option (List OrderItem) := none
  tax_rate : Option ℚ := none
  tax : Option ℚ := none
  tip_percentage : Option ℚ := none
  tip : Option ℚ := none
  service_fee : Option ℚ := none
  delivery_fee : Option ℚ := none
  discount : Option ℚ := none
deriving Repr, DecidableEq

/-- The priced order document produced by create_order. -/
structure PricedOrder where
  items : List OrderItem
  subtotal : ℚ
  tax : ℚ
  tip : ℚ
  service_fee : ℚ
  delivery_fee : ℚ
  discount : ℚ
  total : ℚ
deriving Repr, DecidableEq

/-- `sum(c.get("price", 0) for c in item.get("customizations", []))`. -/
def custTotal (cs : List Customization) : ℚ :=
  (cs.map (fun c => c.price.getD 0)).sum

/-- `(unit_price + customization_total) * quantity` with the source's
defaults quantity=1, unit_price=0. -/
def itemSubtotal (it : OrderItem) : ℚ :=
  (it.unit_price.getD 0 + custTotal it.customizations) * it.quantity.getD 1

/-- The loop body of create_order: stores the computed subtotal on the item. -/
def priceItem (it : OrderItem) : OrderItem :=
  { it with subtotal := some (itemSubtotal it) }

/-- The pricing block of create_order (lines 206-254 of
src/order_crud/__init__.py): per-item subtotals, order subtotal, tax,
tip, fees, discount and total. -/
def priceOrder (r : OrderRequest) : PricedOrder :=
  let items := (r.items.getD []).map priceItem
  let subtotal := (items.map (fun it => it.subtotal.getD 0)).sum
  let tax_rate := r.tax_rate.getD 0
  let tax := if 0 < tax_rate then roundTo 2 (subtotal * tax_rate) else r.tax.getD 0
  let tip_percentage := r.tip_percentage.getD 0
  let tip :=
    if 0 < tip_percentage ∧ r.tip = none
    then roundTo 2 (subtotal * tip_percentage)
    else r.tip.getD 0
  let service_fee := r.service_fee.getD 0
  let delivery_fee := r.delivery_fee.getD 0
  let discount := r.discount.getD 0
  { items := items
    subtotal := subtotal
    tax := tax
    tip := tip
    service_fee := service_fee
    delivery_fee := delivery_fee
    discount := discount
    total := subtotal + tax + tip + service_fee + delivery_fee - discount }

/-- create_order: rejects with 400 when `restaurant_id` or `items` is
missing, otherwise prices the order and inserts it (201).  There is no
validation of quantities, prices or the computed total. -/
def create_order (r : OrderRequest) : Option PricedOrder × ℕ :=
  if r.restaurant_id.isSome ∧ r.items.isSome
  then (some (priceOrder r), 201)
  else (none, 400)

/-! ### Order status lifecycle (src/order_crud/__init__.py) -/

/-- The fields of an order document touched by update_order_status and
delete_order.  Timestamp fields are `none` while never stamped. -/
structure Order where
  status : String := "pending"
  is_active : Bool := true
  updated_at : String := ""
  updated_by : String := ""
  confirmed_at : Option String := none
  preparing_at : Option String := none
  ready_at : Option String := none
  actual_ready_time : Option String := none
  delivered_at : Option String := none
  completed_at : Option String := none
  cancelled_at : Option String := none
  cancelled_by : Option String := none
  cancellation_reason : Option String := none
deriving Repr, DecidableEq

/-- The per-status timestamp stamping chain of update_order_status
(lines 611-625): confirmed, preparing, ready (which also stamps
actual_ready_time), delivered, completed, cancelled; pending stamps
nothing. -/
def stampFor (o : Order) (new_status t2 : String) : Order :=
  if new_status = "confirmed" then { o with confirmed_at := some t2 }
  else if new_status = "preparing" then { o with preparing_at := some t2 }
  else if new_status = "ready" then { o with ready_at := some t2, actual_ready_time := some t2 }
  else if new_status = "delivered" then { o with delivered_at := some t2 }
  else if new_status = "completed" then { o with completed_at := some t2 }
  else if new_status = "cancelled" then { o with cancelled_at := some t2 }
  else o

/-- update_order_status (lines 559-671): validates the target status,
sets status/updated_at/updated_by and the status-matching timestamp.
`t1` models the utcnow() call for updated_at, `t2` the separate utcnow()
call used for the status timestamp.  Invalid statuses give (none, 400). -/
def update_order_status (o : Order) (new_status user t1 t2 : String) :
    Option Order × ℕ :=
  if new_status ∈ ["pending", "confirmed", "preparing", "ready",
      "delivered", "completed", "cancelled"]
  then (some (stampFor
        { o with status := new_status, updated_at := t1, updated_by := user }
        new_status t2), 200)
  else (none, 400)

/-- delete_order (lines 673-755), i.e. cancel: a no-op returning
"Order is already cancelled" when the status is already cancelled,
otherwise the cancellation write.  `t1` models the utcnow() call for
updated_at and `t2` the one for cancelled_at. -/
def delete_order (o : Order) (reason user t1 t2 : String) : Order × String :=
  if o.status = "cancelled" then (o, "Order is already cancelled")
  else
    ({ o with
        status := "cancelled"
        is_active := false
        updated_at := t1
        cancelled_at := some t2
        cancelled_by := some user
        cancellation_reason := some reason },
      "Order cancelled successfully")

/-! ### Review data model (src/review_crud/__init__.py) -/

/-- The fields of a review document the review engine reads or writes. -/
structure Review where
  id : ℕ
  restaurant_id : String
  rating : ℚ
  text : String := ""
  is_active : Bool := true
  status : String := "published"
  helpful_count : ℤ := 0
  unhelpful_count : ℤ := 0
  view_count : ℤ := 0
  flag_count : ℤ := 0
  flagged_reason : List String := []
  updated_at : String := ""
  deleted_by : Option String := none
  deleted_at : Option String := none
  moderated_by : Option String := none
  moderated_at : Option String := none
  moderation_notes : Option String := none
deriving Repr, DecidableEq

/-- The cached aggregate fields of a restaurant document. -/
structure Restaurant where
  avg_rating : ℚ := 0
  review_count : ℕ := 0
  updated_at : String := ""
deriving Repr, DecidableEq

/-- The review collection together with the one restaurant document the
engine aggregates into (identified by `restId`). -/
structure ReviewDB where
  reviews : List Review
  restId : String
  rest : Restaurant
deriving Repr, DecidableEq

/-- The query of update_restaurant_rating: reviews of the restaurant with
is_active true and status published. -/
def publishedFor (rid : String) (l : List Review) : List Review :=
  l.filter (fun rv => rv.restaurant_id == rid && rv.is_active && rv.status == "published")

/-- Mean rating of the qualifying reviews, 0 when there are none
(lines 111-116). -/
def avgFor (rid : String) (l : List Review) : ℚ :=
  let q := publishedFor rid l
  if q.isEmpty then 0 else (q.map (fun rv => rv.rating)).sum / (q.length : ℚ)

/-- update_restaurant_rating (lines 103-133): recomputes avg_rating
(rounded to 1 decimal) and review_count and writes them onto the
restaurant document whose id is `rid`. -/
def update_restaurant_rating (rid t : String) (db : ReviewDB) : ReviewDB :=
  if rid = db.restId then
    { db with rest :=
        { avg_rating := roundTo 1 (avgFor rid db.reviews)
          review_count := (publishedFor rid db.reviews).length
          updated_at := t } }
  else db

/-- `db.reviews.find?` on the review id: the find_one({_id}) lookup. -/
def findRev (db : ReviewDB) (i : ℕ) : Option Review :=
  db.reviews.find? (fun rv => rv.id == i)

/-- update_one({_id: i}, {set: ...}) modelled as mapping `f` over the
review with id `i`. -/
def mapReview (db : ReviewDB) (i : ℕ) (f : Review → Review) : ReviewDB :=
  { db with reviews := db.reviews.map (fun rv => if rv.id == i then f rv else rv) }

/-- The fields of a create-review request body used by create_review;
`none` models an absent key. -/
structure NewReview where
  restaurant_id : Option String := none
  rating : Option ℚ := none
  text : Option String := none
  is_active : Option Bool := none
  status : Option String := none
  helpful_count : Option ℤ := none
  unhelpful_count : Option ℤ := none
  view_count : Option ℤ := none
deriving Repr, DecidableEq

/-- create_review (lines 215-344): requires restaurant_id, rating and
text (400 when missing), rejects ratings outside [1,5] (400), rejects a
missing restaurant (404); otherwise inserts the review with the
server-owned defaults and recomputes the restaurant rating.  The new
document's id is `nid`.  flag_count is not initialised by the source; it
reads as 0 everywhere, modelled as 0 here. -/
def create_review (db : ReviewDB) (inp : NewReview) (t : String) (nid : ℕ) :
    ReviewDB × ℕ :=
  match inp.restaurant_id, inp.rating, inp.text with
  | some rid, some rating, some txt =>
    if 1 ≤ rating ∧ rating ≤ 5 then
      if rid = db.restId then
        let rv : Review :=
          { id := nid
            restaurant_id := rid
            rating := rating
            text := txt
            is_active := inp.is_active.getD true
            status := inp.status.getD "published"
            helpful_count := inp.helpful_count.getD 0
            unhelpful_count := inp.unhelpful_count.getD 0
            view_count := inp.view_count.getD 0
            updated_at := t }
        (update_restaurant_rating rid t { db with reviews := db.reviews ++ [rv] }, 201)
      else (db, 404)
    else (db, 400)
  | _, _, _ => (db, 400)

/-- The caller-supplied fields of an update-review body that the engine
touches; `none` models an absent key. -/
structure UpdatePayload where
  rating : Option ℚ := none
  text : Option String := none
  status : Option String := none
  is_active : Option Bool := none
  helpful_count : Option ℤ := none
  unhelpful_count : Option ℤ := none
  view_count : Option ℤ := none
  flag_count : Option ℤ := none
deriving Repr, DecidableEq

/-- The protected-fields deletion of update_review (lines 551-556): the
list is created_at, created_by, helpful_count, unhelpful_count,
view_count, customer_id, review_number.  Of the modelled fields this
removes the three counters; flag_count is NOT in the source's list. -/
def stripProtected (p : UpdatePayload) : UpdatePayload :=
  { p with helpful_count := none, unhelpful_count := none, view_count := none }

/-- The $set of the (already stripped) payload onto a stored review,
stamping updated_at. -/
def applyFields (p : UpdatePayload) (t : String) (rv : Review) : Review :=
  { rv with
      rating := p.rating.getD rv.rating
      text := p.text.getD rv.text
      status := p.status.getD rv.status
      is_active := p.is_active.getD rv.is_active
      helpful_count := p.helpful_count.getD rv.helpful_count
      unhelpful_count := p.unhelpful_count.getD rv.unhelpful_count
      view_count := p.view_count.getD rv.view_count
      flag_count := p.flag_count.getD rv.flag_count
      updated_at := t }

/-- What update_review writes onto the stored review: the payload with
the protected fields removed. -/
def applyPayload (p : UpdatePayload) (t : String) (rv : Review) : Review :=
  applyFields (stripProtected p) t rv

/-- update_review (lines 527-626): 404 when the review is missing,
otherwise applies the stripped payload and, exactly when the payload
carries a rating different from the stored one, recomputes the
restaurant rating of the review's restaurant. -/
def update_review (db : ReviewDB) (i : ℕ) (p : UpdatePayload) (t : String) :
    ReviewDB × ℕ :=
  match findRev db i with
  | none => (db, 404)
  | some rvOld =>
    let db1 := mapReview db i (applyPayload p t)
    let db2 :=
      match p.rating with
      | none => db1
      | some v =>
        if v = rvOld.rating then db1
        else update_restaurant_rating rvOld.restaurant_id t db1
    (db2, 200)

/-- delete_review (lines 628-709): soft delete (is_active false, status
deleted, audit fields), then recompute the restaurant rating. -/
def delete_review (db : ReviewDB) (i : ℕ) (user t : String) : ReviewDB × ℕ :=
  match findRev db i with
  | none => (db, 404)
  | some rvOld =>
    let db1 := mapReview db i (fun rv =>
      { rv with
          is_active := false
          status := "deleted"
          updated_at := t
          deleted_by := some user
          deleted_at := some t })
    (update_restaurant_rating rvOld.restaurant_id t db1, 200)

/-- The per-document effect of flag_review (lines 892-987): append the
reason when new, always increment flag_count, then auto-transition a
published review to under_review once flag_count reaches the threshold. -/
def flagReviewDoc (flag_threshold : ℤ) (reason t : String) (rv : Review) : Review :=
  let flagged :=
    if reason ∈ rv.flagged_reason then rv.flagged_reason
    else rv.flagged_reason ++ [reason]
  let rv1 := { rv with flagged_reason := flagged, flag_count := rv.flag_count + 1, updated_at := t }
  if flag_threshold ≤ rv1.flag_count ∧ rv1.status = "published"
  then { rv1 with status := "under_review" }
  else rv1

/-- flag_review at the collection level: 404 when the review is missing,
otherwise applies `flagReviewDoc` to it.  `flag_threshold` models the
FLAG_THRESHOLD environment value, default 5. -/
def flag_review (db : ReviewDB) (i : ℕ) (reason : String) (flag_threshold : ℤ)
    (t : String) : ReviewDB × ℕ :=
  match findRev db i with
  | none => (db, 404)
  | some _ => (mapReview db i (flagReviewDoc flag_threshold reason t), 200)

/-- moderate_review (lines 989-1113): validates the target status
(published, hidden, deleted), sets it with the moderation audit fields
(deleted additionally clears is_active and stamps the delete audit
fields) and does NOT recompute the restaurant rating: the source only
logs that the rating should be updated (lines 1069-1073). -/
def moderate_review (db : ReviewDB) (i : ℕ) (new_status notes moderator t : String) :
    ReviewDB × ℕ :=
  if new_status ∈ ["published", "hidden", "deleted"] then
    match findRev db i with
    | none => (db, 404)
    | some _ =>
      (mapReview db i (fun rv =>
        let rv1 :=
          { rv with
              status := new_status
              updated_at := t
              moderated_by := some moderator
              moderated_at := some t
              moderation_notes := some notes }
        if new_status = "deleted"
        then { rv1 with is_active := false, deleted_by := some moderator, deleted_at := some t }
        else rv1), 200)
  else (db, 400)

/-- The §3 invariant: the cached aggregates equal the mean (rounded to
one decimal, 0 when empty) and count of the restaurant's active
published reviews. -/
def ratingInvariant (db : ReviewDB) : Prop :=
  db.rest.avg_rating = roundTo 1 (avgFor db.restId db.reviews) ∧
  db.rest.review_count = (publishedFor db.restId db.reviews).length

instance (db : ReviewDB) : Decidable (ratingInvariant db) := by
  unfold ratingInvariant; infer_instance

/-! ### Concrete inputs used in the theorems below -/

/-- An order request whose discount exceeds all other terms. -/
def reqNeg : OrderRequest :=
  { restaurant_id := some "r1"
    items := some [⟨some 1, some 1, [], none⟩]
    discount := some 100 }

/-- Items worth 100 with tax_rate 0.08 supplied. -/
def reqTax8 : OrderRequest :=
  { restaurant_id := some "r1"
    items := some [⟨some 1, some 100, [], none⟩]
    tax_rate := some (2/25) }

/-- Items worth 100, tax_rate 0 and a caller-supplied tax of 5. -/
def reqTaxKeep : OrderRequest :=
  { restaurant_id := some "r1"
    items := some [⟨some 1, some 100, [], none⟩]
    tax_rate := some 0
    tax := some 5 }

/-- Items worth 100 with tip_percentage 0.15 and no explicit tip. -/
def reqTip15 : OrderRequest :=
  { restaurant_id := some "r1"
    items := some [⟨some 1, some 100, [], none⟩]
    tip_percentage := some (3/20) }

/-- Items worth 100 with tip_percentage 0.15 and an explicit tip of 3. -/
def reqTip3 : OrderRequest :=
  { restaurant_id := some "r1"
    items := some [⟨some 1, some 100, [], none⟩]
    tip_percentage := some (3/20)
    tip := some 3 }

/-- An order request with a zero quantity and a negative unit price. -/
def reqLoose : OrderRequest :=
  { restaurant_id := some "r1"
    items := some [⟨some 0, some 10, [], none⟩, ⟨some 2, some (-3), [], none⟩] }

/-- An active, published review of restaurant r1 rated 4. -/
def rvPub : Review := { id := 0, restaurant_id := "r1", rating := 4 }

/-- A one-review database whose cached aggregates are consistent:
avg_rating 4.0, review_count 1. -/
def dbMod : ReviewDB :=
  { reviews := [rvPub]
    restId := "r1"
    rest := { avg_rating := 4, review_count := 1, updated_at := "t0" } }

/-- An update payload carrying only a caller-supplied flag_count. -/
def payFlag : UpdatePayload := { flag_count := some 99 }

/-- An update payload changing the rating from 4 to 3. -/
def payRating : UpdatePayload := { rating := some 3 }

/-- A create-review input with the out-of-range rating 0. -/
def inpR0 : NewReview :=
  { restaurant_id := some "r1", rating := some 0, text := some "bad" }

/-- A create-review input with the out-of-range rating 6. -/
def inpR6 : NewReview :=
  { restaurant_id := some "r1", rating := some 6, text := some "bad" }

/-- A create-review input with the boundary rating 1. -/
def inpR1 : NewReview :=
  { restaurant_id := some "r1", rating := some 1, text := some "ok" }

/-- A create-review input with the boundary rating 5. -/
def inpR5 : NewReview :=
  { restaurant_id := some "r1", rating := some 5, text := some "ok" }

/-- A fresh published review with no flags yet. -/
def rvFresh : Review := { id := 1, restaurant_id := "r1", rating := 5 }

end PromptMenu

namespace PromptMenu

/-- Sanity check of the rounding model: round-half-to-even at integer
ties, exact elsewhere. -/
theorem pyRound_model_checks :
    pyRoundInt (5/2) = 2 ∧ pyRoundInt (-5/2) = -2 ∧
    roundTo 2 (100 * (2/25)) = 8 ∧ roundTo 1 ((9:ℚ)/2) = 9/2 ∧
    itemSubtotal ⟨some 2, some 10, [⟨some (3/2)⟩], none⟩ = 23 := by
  refine ⟨?_, ?_, ?_, ?_, ?_⟩ <;>
    norm_num [pyRoundInt, roundTo, itemSubtotal, custTotal]

/-- Claim C1: for every order priced on creation, each item's subtotal is
(unit_price + sum of customization prices) * quantity, the order subtotal
is the sum of the item subtotals, the total is
subtotal + tax + tip + service_fee + delivery_fee - discount, and there
is an accepted order whose total is negative (no clamping to zero). -/
theorem order_pricing_total_C1 (r : OrderRequest) :
    (priceOrder r).items = (r.items.getD []).map priceItem ∧
    (∀ it : OrderItem, (priceItem it).subtotal =
      some ((it.unit_price.getD 0 + custTotal it.customizations) * it.quantity.getD 1)) ∧
    (priceOrder r).subtotal = ((priceOrder r).items.map (fun it => it.subtotal.getD 0)).sum ∧
    (priceOrder r).total =
      (priceOrder r).subtotal + (priceOrder r).tax + (priceOrder r).tip +
        (priceOrder r).service_fee + (priceOrder r).delivery_fee - (priceOrder r).discount ∧
    ∃ q : OrderRequest, (create_order q).2 = 201 ∧ (priceOrder q).total < 0 := by
  refine ⟨rfl, fun it => rfl, rfl, rfl, reqNeg, rfl, ?_⟩
  norm_num [priceOrder, priceItem, itemSubtotal, custTotal, reqNeg]

/-- Claim C2: the tax of a priced order is round(subtotal * tax_rate, 2)
whenever tax_rate > 0 (overriding any caller-supplied tax), and otherwise
the caller-supplied tax (0 when absent); in particular tax_rate 0.08 on a
subtotal of 100 gives tax 8, and tax_rate 0 keeps a caller tax of 5. -/
theorem order_tax_C2 (r : OrderRequest) :
    ((priceOrder r).tax =
      if 0 < r.tax_rate.getD 0
      then roundTo 2 ((priceOrder r).subtotal * r.tax_rate.getD 0)
      else r.tax.getD 0) ∧
    (priceOrder reqTax8).subtotal = 100 ∧ (priceOrder reqTax8).tax = 8 ∧
    (priceOrder reqTaxKeep).tax = 5 := by
  refine ⟨rfl, ?_, ?_, ?_⟩
  · norm_num [priceOrder, priceItem, itemSubtotal, custTotal, reqTax8]
  · norm_num [priceOrder, priceItem, itemSubtotal, custTotal, reqTax8, roundTo, pyRoundInt]
  · norm_num [priceOrder, priceItem, itemSubtotal, custTotal, reqTaxKeep]

/-- Claim C6: the tip of a priced order is round(subtotal * tip_percentage, 2)
exactly when tip_percentage > 0 and no explicit tip was supplied, and
otherwise the caller-supplied tip (0 when absent); in particular
tip_percentage 0.15 on a subtotal of 100 gives tip 15, while an explicit
tip of 3 is kept unchanged. -/
theorem order_tip_C6 (r : OrderRequest) :
    ((priceOrder r).tip =
      if 0 < r.tip_percentage.getD 0 ∧ r.tip = none
      then roundTo 2 ((priceOrder r).subtotal * r.tip_percentage.getD 0)
      else r.tip.getD 0) ∧
    (priceOrder reqTip15).tip = 15 ∧
    (priceOrder reqTip3).tip = 3 := by
  refine ⟨rfl, ?_, ?_⟩
  · norm_num [priceOrder, priceItem, itemSubtotal, custTotal, reqTip15, roundTo, pyRoundInt]
  · norm_num [priceOrder, priceItem, itemSubtotal, custTotal, reqTip3]
    exact fun h => absurd h (by simp)

/-- Claim C10: order creation validates no lower bounds on line items:
a missing quantity defaults to 1, a missing unit_price defaults to 0, and
an order with quantity 0 and a negative unit price is accepted, its
values flowing unchecked into the item subtotals, order subtotal and
total. -/
theorem order_item_defaults_C10 :
    (∀ it : OrderItem, it.quantity = none →
      (priceItem it).subtotal = some (it.unit_price.getD 0 + custTotal it.customizations)) ∧
    (∀ it : OrderItem, it.unit_price = none →
      (priceItem it).subtotal = some (custTotal it.customizations * it.quantity.getD 1)) ∧
    (create_order reqLoose).2 = 201 ∧
    (priceOrder reqLoose).items.map (fun it => it.subtotal.getD 0) = [0, -6] ∧
    (priceOrder reqLoose).subtotal = -6 ∧
    (priceOrder reqLoose).total = -6 := by
  refine ⟨?_, ?_, rfl, ?_, ?_, ?_⟩
  · intro it h
    simp [priceItem, itemSubtotal, h]
  · intro it h
    simp [priceItem, itemSubtotal, h]
  · norm_num [priceOrder, priceItem, itemSubtotal, custTotal, reqLoose]
  · norm_num [priceOrder, priceItem, itemSubtotal, custTotal, reqLoose]
  · norm_num [priceOrder, priceItem, itemSubtotal, custTotal, reqLoose]

/-- Cancelling an order always leaves it with status cancelled. -/
theorem delete_order_status (o : Order) (reason user t1 t2 : String) :
    (delete_order o reason user t1 t2).1.status = "cancelled" := by
  by_cases h : o.status = "cancelled"
  · simp [delete_order, h]
  · simp [delete_order, h]

/-- A cancelled order is left untouched by delete_order, which reports
"already cancelled". -/
theorem delete_order_noop (o : Order) (reason user t1 t2 : String)
    (h : o.status = "cancelled") :
    delete_order o reason user t1 t2 = (o, "Order is already cancelled") := by
  simp [delete_order, h]

/-- Claim C8: cancel (delete_order) is idempotent: a second cancel on an
already-cancelled order performs no write, returns the
"Order is already cancelled" report, and leaves every field, in
particular cancelled_at, unchanged from the first cancellation. -/
theorem cancel_idempotent_C8 (o : Order) (r1 u1 t1 s1 r2 u2 t2 s2 : String) :
    delete_order (delete_order o r1 u1 t1 s1).1 r2 u2 t2 s2 =
      ((delete_order o r1 u1 t1 s1).1, "Order is already cancelled") ∧
    (delete_order (delete_order o r1 u1 t1 s1).1 r2 u2 t2 s2).1.cancelled_at =
      (delete_order o r1 u1 t1 s1).1.cancelled_at := by
  have h := delete_order_noop (delete_order o r1 u1 t1 s1).1 r2 u2 t2 s2
    (delete_order_status o r1 u1 t1 s1)
  exact ⟨h, by rw [h]⟩

/-- Claim C9: update_order_status to "ready" stamps both ready_at and
actual_ready_time with the same timestamp and leaves all other status
timestamps unchanged; every other valid target stamps exactly its
matching *_at field (confirmed, preparing, delivered, completed,
cancelled), and pending stamps nothing. -/
theorem status_stamp_C9 (o : Order) (u t1 t2 : String) :
    update_order_status o "ready" u t1 t2 =
      (some { o with
          status := "ready"
          updated_at := t1
          updated_by := u
          ready_at := some t2
          actual_ready_time := some t2 }, 200) ∧
    update_order_status o "confirmed" u t1 t2 =
      (some { o with
          status := "confirmed"
          updated_at := t1
          updated_by := u
          confirmed_at := some t2 }, 200) ∧
    update_order_status o "preparing" u t1 t2 =
      (some { o with
          status := "preparing"
          updated_at := t1
          updated_by := u
          preparing_at := some t2 }, 200) ∧
    update_order_status o "delivered" u t1 t2 =
      (some { o with
          status := "delivered"
          updated_at := t1
          updated_by := u
          delivered_at := some t2 }, 200) ∧
    update_order_status o "completed" u t1 t2 =
      (some { o with
          status := "completed"
          updated_at := t1
          updated_by := u
          completed_at := some t2 }, 200) ∧
    update_order_status o "cancelled" u t1 t2 =
      (some { o with
          status := "cancelled"
          updated_at := t1
          updated_by := u
          cancelled_at := some t2 }, 200) ∧
    update_order_status o "pending" u t1 t2 =
      (some { o with status := "pending", updated_at := t1, updated_by := u }, 200) := by
  refine ⟨?_, ?_, ?_, ?_, ?_, ?_, ?_⟩ <;>
    simp [update_order_status, stampFor]

/-- Witness for C10: the defaults evaluated at concrete items, via the
theorem itself. -/
theorem order_item_defaults_C10_witness :
    (priceItem ⟨none, some 10, [], none⟩).subtotal =
      some ((10 : ℚ) + custTotal []) ∧
    (priceItem ⟨some 2, none, [], none⟩).subtotal =
      some (custTotal [] * 2) := by
  constructor
  · exact order_item_defaults_C10.1 ⟨none, some 10, [], none⟩ rfl
  · exact order_item_defaults_C10.2.1 ⟨some 2, none, [], none⟩ rfl

/-! ### Review engine lemmas -/

/-- Recomputing onto the database's own restaurant establishes the
rating invariant. -/
theorem update_restaurant_rating_invariant (rid : String) (db : ReviewDB)
    (t : String) (h : rid = db.restId) :
    ratingInvariant (update_restaurant_rating rid t db) := by
  subst h
  simp [update_restaurant_rating, ratingInvariant]

/-- update_restaurant_rating never touches the review collection. -/
theorem update_restaurant_rating_reviews (rid t : String) (db : ReviewDB) :
    (update_restaurant_rating rid t db).reviews = db.reviews := by
  unfold update_restaurant_rating
  split <;> rfl

/-- find? over the point update of mapReview, for an id-preserving f. -/
theorem find_map_upd (i : ℕ) (f : Review → Review)
    (hid : ∀ rv : Review, (f rv).id = rv.id) (l : List Review) :
    (l.map (fun rv => if rv.id == i then f rv else rv)).find? (fun rv => rv.id == i) =
      (l.find? (fun rv => rv.id == i)).map
        (fun rv => if rv.id == i then f rv else rv) := by
  have hpg : ((fun rv : Review => rv.id == i) ∘ fun rv : Review => if rv.id == i then f rv else rv)
      = fun rv : Review => rv.id == i := by
    funext rv
    by_cases h : (rv.id == i) = true
    · simp [Function.comp, h, hid rv]
    · have hb : (rv.id == i) = false := by simpa using h
      simp [Function.comp, hb]
  rw [List.find?_map, hpg]

/-- findRev after mapReview at the same id, for an id-preserving f. -/
theorem findRev_mapReview (db : ReviewDB) (i : ℕ) (f : Review → Review) (rv : Review)
    (hid : ∀ rv : Review, (f rv).id = rv.id) (h : findRev db i = some rv) :
    findRev (mapReview db i f) i = some (f rv) := by
  unfold findRev mapReview at *
  rw [find_map_upd i f hid, h]
  have hb := List.find?_some h
  have hb2 : rv.id = i := by simpa using hb
  simp [hb2]

/-- Claim C3 (amended): the rating invariant holds after a successful
review create, after a review update whose payload carries a rating
different from the stored one, and after a review soft-delete — the
three mutations that invoke update_restaurant_rating.  (It does NOT hold
after a moderation status change; see the counterexample.) -/
theorem rating_recompute_C3 (db : ReviewDB) (t : String) :
    (∀ inp nid, (create_review db inp t nid).2 = 201 →
      ratingInvariant (create_review db inp t nid).1) ∧
    (∀ i p rv, findRev db i = some rv → rv.restaurant_id = db.restId →
      ∀ v, p.rating = some v → v ≠ rv.rating →
      ratingInvariant (update_review db i p t).1) ∧
    (∀ i rv user, findRev db i = some rv → rv.restaurant_id = db.restId →
      ratingInvariant (delete_review db i user t).1) := by
  refine ⟨?_, ?_, ?_⟩
  · intro inp nid h
    cases hri : inp.restaurant_id with
    | none => simp [create_review, hri] at h
    | some rid =>
      cases hra : inp.rating with
      | none => simp [create_review, hri, hra] at h
      | some rating =>
        cases htx : inp.text with
        | none => simp [create_review, hri, hra, htx] at h
        | some txt =>
          by_cases hr5 : 1 ≤ rating ∧ rating ≤ 5
          · by_cases hrid : rid = db.restId
            · simp only [create_review, hri, hra, htx, if_pos hr5, if_pos hrid]
              exact update_restaurant_rating_invariant _ _ t hrid
            · simp [create_review, hri, hra, htx, hr5, hrid] at h
          · simp [create_review, hri, hra, htx, hr5] at h
  · intro i p rv hfind hrid v hv hne
    simp only [update_review, hfind, hv]
    rw [if_neg hne]
    exact update_restaurant_rating_invariant _ _ t hrid
  · intro i rv user hfind hrid
    simp only [delete_review, hfind]
    exact update_restaurant_rating_invariant _ _ t hrid

/-- Witness for C3: the amended invariant evaluated on a concrete
database, through the theorem itself, for create, rating-changing
update, and soft-delete. -/
theorem rating_recompute_C3_witness :
    ratingInvariant (create_review dbMod inpR5 "t1" 7).1 ∧
    ratingInvariant (update_review dbMod 0 payRating "t1").1 ∧
    ratingInvariant (delete_review dbMod 0 "u" "t1").1 :=
  ⟨(rating_recompute_C3 dbMod "t1").1 inpR5 7 rfl,
   (rating_recompute_C3 dbMod "t1").2.1 0 payRating rvPub rfl rfl 3 rfl (by norm_num [rvPub]),
   (rating_recompute_C3 dbMod "t1").2.2 0 rvPub "u" rfl rfl⟩

/-- Counterexample for C3 as stated: a consistent database (one active
published review rated 4, cached avg 4.0 / count 1) on which a
successful moderation status change to "hidden" leaves the cached
aggregates stale, because moderate_review never recomputes them. -/
theorem moderation_stale_rating_C3_cex :
    ratingInvariant dbMod ∧
    (moderate_review dbMod 0 "hidden" "" "mod" "t1").2 = 200 ∧
    (findRev (moderate_review dbMod 0 "hidden" "" "mod" "t1").1 0).map
      (fun rv => rv.status) = some "hidden" ∧
    ¬ ratingInvariant (moderate_review dbMod 0 "hidden" "" "mod" "t1").1 := by
  refine ⟨?_, rfl, ?_, ?_⟩
  · constructor
    · norm_num [dbMod, rvPub, avgFor, publishedFor, roundTo, pyRoundInt]
    · norm_num [dbMod, rvPub, publishedFor]
  · decide
  · intro hinv
    exact absurd hinv.2 (by decide)

/-- update_review leaves the review collection equal to the point update
of the stripped payload (the rating-recompute step only touches the
restaurant document). -/
theorem update_review_reviews (db : ReviewDB) (i : ℕ) (p : UpdatePayload)
    (t : String) (rv : Review) (h : findRev db i = some rv) :
    (update_review db i p t).1.reviews = (mapReview db i (applyPayload p t)).reviews := by
  simp only [update_review, h]
  cases hr : p.rating with
  | none => rfl
  | some v =>
    by_cases hv : v = rv.rating
    · simp [hv]
    · simp [hv, update_restaurant_rating_reviews]

/-- Claim C4 (amended): for every review update request the protected
counters helpful_count, unhelpful_count and view_count of the stored
review are unchanged, whatever the payload carries; flag_count however
is NOT in the source's protected list, so a caller-supplied flag_count
overwrites the stored value (see the counterexample). -/
theorem update_counters_C4 (db : ReviewDB) (i : ℕ) (p : UpdatePayload) (t : String) :
    ((findRev (update_review db i p t).1 i).map (fun rv => rv.helpful_count) =
      (findRev db i).map (fun rv => rv.helpful_count)) ∧
    ((findRev (update_review db i p t).1 i).map (fun rv => rv.unhelpful_count) =
      (findRev db i).map (fun rv => rv.unhelpful_count)) ∧
    ((findRev (update_review db i p t).1 i).map (fun rv => rv.view_count) =
      (findRev db i).map (fun rv => rv.view_count)) ∧
    (∀ rv : Review, (applyPayload p t rv).flag_count = p.flag_count.getD rv.flag_count) := by
  cases h : findRev db i with
  | none =>
    refine ⟨?_, ?_, ?_, fun rv => rfl⟩ <;> simp [update_review, h]
  | some rv =>
    have hrev := update_review_reviews db i p t rv h
    have hfind : findRev (update_review db i p t).1 i = some (applyPayload p t rv) := by
      have hmap := findRev_mapReview db i (applyPayload p t) rv (fun x => rfl) h
      unfold findRev at hmap ⊢
      rw [hrev]
      exact hmap
    refine ⟨?_, ?_, ?_, fun x => rfl⟩ <;> rw [hfind] <;> rfl

/-- Counterexample for C4 as stated: a payload carrying flag_count 99
overwrites the stored flag_count 0 of the review, because flag_count is
missing from update_review's protected-fields list. -/
theorem update_flag_count_C4_cex :
    (findRev dbMod 0).map (fun rv => rv.flag_count) = some 0 ∧
    (update_review dbMod 0 payFlag "t1").2 = 200 ∧
    (findRev (update_review dbMod 0 payFlag "t1").1 0).map (fun rv => rv.flag_count) =
      some 99 := by
  refine ⟨rfl, rfl, ?_⟩
  decide

/-- Claim C5: flag_review always increments flag_count by exactly 1, it
appends the reason only when it is not already present, and the status
becomes under_review exactly when the incremented flag_count reaches the
threshold on a published review; concretely, with threshold 5, four
flags leave a fresh published review published and the 5th flips it to
under_review. -/
theorem flag_review_C5 (rv : Review) (reason t : String) (thr : ℤ) :
    (flagReviewDoc thr reason t rv).flag_count = rv.flag_count + 1 ∧
    (flagReviewDoc thr reason t rv).flagged_reason =
      (if reason ∈ rv.flagged_reason then rv.flagged_reason
       else rv.flagged_reason ++ [reason]) ∧
    (flagReviewDoc thr reason t rv).status =
      (if thr ≤ rv.flag_count + 1 ∧ rv.status = "published"
       then "under_review" else rv.status) ∧
    ((flagReviewDoc 5 "spam" "t1")^[1] rvFresh).status = "published" ∧
    ((flagReviewDoc 5 "spam" "t1")^[2] rvFresh).status = "published" ∧
    ((flagReviewDoc 5 "spam" "t1")^[3] rvFresh).status = "published" ∧
    ((flagReviewDoc 5 "spam" "t1")^[4] rvFresh).status = "published" ∧
    ((flagReviewDoc 5 "spam" "t1")^[5] rvFresh).status = "under_review" ∧
    ((flagReviewDoc 5 "spam" "t1")^[5] rvFresh).flag_count = 5 ∧
    ((flagReviewDoc 5 "spam" "t1")^[6] rvFresh).status = "under_review" := by
  refine ⟨?_, ?_, ?_, ?_, ?_, ?_, ?_, ?_, ?_, ?_⟩
  · simp only [flagReviewDoc]
    split <;> rfl
  · simp only [flagReviewDoc]
    split <;> rfl
  · simp only [flagReviewDoc]
    split <;> rfl
  · decide
  · decide
  · decide
  · decide
  · decide
  · decide
  · decide

/-- Claim C7: review creation rejects with 400, inserting nothing, every
request whose rating is outside [1,5], and accepts a request with an
in-range rating for an existing restaurant. -/
theorem create_review_rating_C7 (db : ReviewDB) (inp : NewReview) (t : String)
    (nid : ℕ) (rid : String) (rating : ℚ) (txt : String)
    (hrid : inp.restaurant_id = some rid) (hrat : inp.rating = some rating)
    (htxt : inp.text = some txt) :
    ((rating < 1 ∨ 5 < rating) → create_review db inp t nid = (db, 400)) ∧
    (1 ≤ rating → rating ≤ 5 → rid = db.restId →
      (create_review db inp t nid).2 = 201) := by
  constructor
  · intro h
    have hno : ¬ (1 ≤ rating ∧ rating ≤ 5) := by
      rcases h with h | h
      · exact fun hc => absurd hc.1 (not_le.mpr h)
      · exact fun hc => absurd hc.2 (not_le.mpr h)
    simp [create_review, hrid, hrat, htxt, hno]
  · intro h1 h2 h3
    simp [create_review, hrid, hrat, htxt, if_pos (And.intro h1 h2), h3]

/-- Witness for C7: ratings 0 and 6 are rejected with the database
unchanged, ratings 1 and 5 are accepted, via the theorem itself. -/
theorem create_review_rating_C7_witness :
    create_review dbMod inpR0 "t1" 2 = (dbMod, 400) ∧
    create_review dbMod inpR6 "t1" 2 = (dbMod, 400) ∧
    (create_review dbMod inpR1 "t1" 2).2 = 201 ∧
    (create_review dbMod inpR5 "t1" 2).2 = 201 :=
  ⟨(create_review_rating_C7 dbMod inpR0 "t1" 2 "r1" 0 "bad" rfl rfl rfl).1
      (Or.inl (by norm_num)),
   (create_review_rating_C7 dbMod inpR6 "t1" 2 "r1" 6 "bad" rfl rfl rfl).1
      (Or.inr (by norm_num)),
   (create_review_rating_C7 dbMod inpR1 "t1" 2 "r1" 1 "ok" rfl rfl rfl).2
      (by norm_num) (by norm_num) rfl,
   (create_review_rating_C7 dbMod inpR5 "t1" 2 "r1" 5 "ok" rfl rfl rfl).2
      (by norm_num) (by norm_num) rfl⟩

end PromptMenu
